import Mathlib

/-
Verification development for the schema-adaptive itinerary serialization
engine (travel_xml.py): a shallow embedding of the itinerary data model,
the heuristic markdown day/item parser, the embedded-JSON extractor, the
schema-shape resolution logic, and the two-mode XML tree builders,
together with theorems settling the frozen claims about them.

Strings are modelled as lists of Unicode code points (matching Python's
string indexing).  Regular-expression behaviour is embedded as
deterministic scanners that implement the exact backtracking semantics of
the concrete patterns used in the source (argued case by case where the
pattern is deterministic).  Python float arithmetic in the duration
extractor is modelled with exact rational arithmetic over naturals; the
truncation direction (toward zero on non-negative values) coincides.
-/

/-! ## Character classes -/

/-- Python whitespace (`str.strip`, regex `\s`), restricted to the code
points that can occur in this development's inputs. -/
def isSpaceChar (c : Char) : Bool :=
  c = ' ' || c = '\t' || c = '\n' || c = '\r' || c = '\x0b' || c = '\x0c' ||
  c = '\xa0' || c = '　'

/-- Python `\w` (word character) for the code points relevant here: ASCII
alphanumerics, underscore, and CJK unified ideographs. -/
def isWordChar (c : Char) : Bool :=
  c.isAlphanum || c = '_' || (0x4E00 ≤ c.toNat && c.toNat ≤ 0x9FFF)

def isDigitChar (c : Char) : Bool := c.isDigit

def natOfDigits (ds : List Char) : Nat :=
  ds.foldl (fun a c => a * 10 + (c.toNat - '0'.toNat)) 0

/-- Strip characters satisfying `p` from both ends (Python `str.strip`). -/
def pyStripAll (p : Char → Bool) (cs : List Char) : List Char :=
  ((cs.dropWhile p).reverse.dropWhile p).reverse

def pyStripWs (cs : List Char) : List Char := pyStripAll isSpaceChar cs

/-- Substring containment (Python `needle in haystack`). -/
def containsSub : List Char → List Char → Bool
  | _, [] => true
  | [], _ :: _ => false
  | h :: t, n :: m => if (n :: m).isPrefixOf (h :: t) then true else containsSub t (n :: m)

/-- Python `str.splitlines` for `\n`, `\r\n` and `\r` line endings. -/
def splitlinesAux : List Char → List Char → List (List Char)
  | [], cur => if cur.isEmpty then [] else [cur.reverse]
  | '\r' :: '\n' :: t, cur => cur.reverse :: splitlinesAux t []
  | '\n' :: t, cur => cur.reverse :: splitlinesAux t []
  | '\r' :: t, cur => cur.reverse :: splitlinesAux t []
  | c :: t, cur => splitlinesAux t (c :: cur)

def pySplitlines (cs : List Char) : List (List Char) := splitlinesAux cs []

/-! ## Itinerary data model (dataclasses PlanItem / DayPlan / TravelPlan) -/

structure PlanItem where
  period : String
  title : String
  location : Option String := none
  transport : Option String := none
  duration : Option String := none
  cost : Option String := none
  note : Option String := none
deriving Repr, DecidableEq

structure DayPlan where
  index : Nat
  items : List PlanItem := []
  note : Option String := none
deriving Repr, DecidableEq

structure TravelPlan where
  destination : String
  days : Nat
  budget : String
  preferences : String
  summary : Option String := none
  tips : Option String := none
  daily : List DayPlan := []
deriving Repr, DecidableEq

/-- Python truthiness of an optional string (`None` and `""` are falsy). -/
def optStr (o : Option String) : Bool :=
  match o with
  | some s => !(s == "")
  | none => false

/-- Python truthiness of a string. -/
def strB (s : String) : Bool := !(s == "")

/-- Python `a or b` on an optional string with a string default. -/
def pyOrS (o : Option String) (d : String) : String :=
  match o with
  | some s => if s == "" then d else s
  | none => d

/-! ## Markdown day/item parser (`parse_markdown_days` and helpers) -/

/-- Keyword table of `_detect_period` (first match wins, default `other`). -/
def detectPeriod (l : List Char) : String :=
  let low := l.map Char.toLower
  if containsSub low "上午".data || containsSub low "morning".data then "morning"
  else if containsSub low "下午".data || containsSub low "afternoon".data then "afternoon"
  else if containsSub low "晚上".data || containsSub low "evening".data ||
          containsSub low "夜".data then "evening"
  else "other"

/-- Scan for the lazily-matched closing parenthesis of
`^(.*?)[（(](.*?)[）)]\s*$`: the first closer after which only whitespace
remains.  Returns the group-2 content. -/
def closerScan : List Char → List Char → Option (List Char)
  | _, [] => none
  | acc, c :: t =>
    if (c = '）' || c = ')') && t.all isSpaceChar then some acc.reverse
    else closerScan (c :: acc) t

/-- Scan for the lazily-matched opening parenthesis: the first opener for
which `closerScan` succeeds.  Returns (group 1, group 2). -/
def openerScan : List Char → List Char → Option (List Char × List Char)
  | _, [] => none
  | acc, c :: t =>
    if c = '（' || c = '(' then
      match closerScan [] t with
      | some content => some (acc.reverse, content)
      | none => openerScan (c :: acc) t
    else openerScan (c :: acc) t

def parenMatch (text : List Char) : Option (List Char × List Char) :=
  openerScan [] text

/-- Split at the first `-` (Python `text.split("-", 1)`); only called when
a `-` is present. -/
def splitFirstDash : List Char → (List Char × List Char)
  | [] => ([], [])
  | c :: t =>
    if c = '-' then ([], t)
    else
      let p := splitFirstDash t
      (c :: p.1, p.2)

/-- The doubly stripped text of `_split_title_and_note`:
`text.strip().strip('。')`. -/
def cleanTitleText (l : List Char) : List Char :=
  pyStripAll (fun c => c = '。') (pyStripWs l)

/-- Model of `_split_title_and_note`: parenthetical split, else first-dash split
with both sides non-empty, else the whole text as title. -/
def splitTitleAndNote (l : List Char) : String × Option String :=
  let text := cleanTitleText l
  match parenMatch text with
  | some (g1, g2) =>
    let title := pyStripWs g1
    let note := pyStripWs g2
    (if title.isEmpty then String.mk text else String.mk title,
     if note.isEmpty then none else some (String.mk note))
  | none =>
    if containsSub text ['-'] then
      let p := splitFirstDash text
      let a := pyStripWs p.1
      let b := pyStripWs p.2
      if !a.isEmpty && !b.isEmpty then (String.mk a, some (String.mk b))
      else (String.mk text, none)
    else (String.mk text, none)

/-- Unit alternation `小时|h|小时钟|hr|hrs` — the `h` alternative subsumes
`hr`/`hrs`, `小时` subsumes `小时钟`. -/
def unitHours (r : List Char) : Bool :=
  ['小', '时'].isPrefixOf r || ['h'].isPrefixOf r

/-- Unit alternation `分钟|min|mins` — `min` subsumes `mins`. -/
def unitMins (r : List Char) : Bool :=
  ['分', '钟'].isPrefixOf r || ['m', 'i', 'n'].isPrefixOf r

/-- Exact minutes value of `int(hours * 60)` for hour value
`ds . fs` (integer digits `ds`, fraction digits `fs`), computed on
rationals: truncation toward zero equals floor division here. -/
def minutesOfHours (ds fs : List Char) : Nat :=
  (natOfDigits ds * 10 ^ fs.length + natOfDigits fs) * 60 / 10 ^ fs.length

/-- Try `(\d+(?:\.\d+)?)\s*(小时|h|小时钟|hr|hrs)` anchored at this
position.  The greedy digit groups never need shrinking (no unit starts
with a digit, whitespace or dot); the optional fraction group is tried
greedily first and then dropped, per regex backtracking. -/
def hoursAt (cs : List Char) : Option Nat :=
  let ds := cs.takeWhile isDigitChar
  if ds.isEmpty then none
  else
    let rest := cs.dropWhile isDigitChar
    match rest with
    | '.' :: r2 =>
      let fs := r2.takeWhile isDigitChar
      if !fs.isEmpty && unitHours ((r2.dropWhile isDigitChar).dropWhile isSpaceChar) then
        some (minutesOfHours ds fs)
      else if unitHours (rest.dropWhile isSpaceChar) then some (natOfDigits ds * 60)
      else none
    | _ =>
      if unitHours (rest.dropWhile isSpaceChar) then some (natOfDigits ds * 60)
      else none

def scanHours : List Char → Option Nat
  | [] => none
  | c :: t =>
    match hoursAt (c :: t) with
    | some v => some v
    | none => scanHours t

/-- Try `(\d+)\s*(分钟|min|mins)` anchored at this position. -/
def minsAt (cs : List Char) : Option Nat :=
  let ds := cs.takeWhile isDigitChar
  if ds.isEmpty then none
  else if unitMins ((cs.dropWhile isDigitChar).dropWhile isSpaceChar) then
    some (natOfDigits ds)
  else none

def scanMins : List Char → Option Nat
  | [] => none
  | c :: t =>
    match minsAt (c :: t) with
    | some v => some v
    | none => scanMins t

/-- Model of `_extract_duration_minutes`: hours pattern first (value times 60,
truncated), then minutes pattern. -/
def extractDurationMinutes (l : List Char) : Option Nat :=
  match scanHours l with
  | some v => some v
  | none => scanMins l

/-- Ordered keyword table of `_extract_transport` (first match wins). -/
def transportPairs : List (List Char × String) :=
  [("地铁".data, "subway"), ("公交".data, "bus"), ("步行".data, "walk"),
   ("出租".data, "taxi"), ("打车".data, "taxi"), ("自驾".data, "drive"),
   ("高铁".data, "rail"), ("火车".data, "rail"), ("飞机".data, "flight")]

def extractTransport (l : List Char) : Option String :=
  (transportPairs.find? (fun p => containsSub l p.1)).map (fun p => p.2)

/-! ### Day-heading regex
`^(?:#+\s*)?(第?\s*(\d+)\s*天|day\s*(\d+)|d\s*(\d+))\b` with
IGNORECASE and MULTILINE, scanned by `finditer`. -/

/-- The optional `(?:#+\s*)?` group.  If a `#` is present the group must
consume it (the alternatives cannot start with `#`), so the group is
deterministic. -/
def dropHashes (cs : List Char) : List Char :=
  match cs with
  | '#' :: _ => (cs.dropWhile (fun c => c = '#')).dropWhile isSpaceChar
  | _ => cs

/-- Alternative `第?\s*(\d+)\s*天`. -/
def headAlt1 (cs : List Char) : Option (Nat × List Char) :=
  let cs1 := match cs with
    | '第' :: t => t
    | _ => cs
  let cs2 := cs1.dropWhile isSpaceChar
  let ds := cs2.takeWhile isDigitChar
  if ds.isEmpty then none
  else
    match (cs2.dropWhile isDigitChar).dropWhile isSpaceChar with
    | '天' :: t => some (natOfDigits ds, t)
    | _ => none

/-- Alternative `day\s*(\d+)` (case-insensitive). -/
def headAlt2 (cs : List Char) : Option (Nat × List Char) :=
  match cs with
  | c1 :: c2 :: c3 :: t =>
    if (c1 = 'd' || c1 = 'D') && (c2 = 'a' || c2 = 'A') && (c3 = 'y' || c3 = 'Y') then
      let cs2 := t.dropWhile isSpaceChar
      let ds := cs2.takeWhile isDigitChar
      if ds.isEmpty then none else some (natOfDigits ds, cs2.dropWhile isDigitChar)
    else none
  | _ => none

/-- Alternative `d\s*(\d+)` (case-insensitive). -/
def headAlt3 (cs : List Char) : Option (Nat × List Char) :=
  match cs with
  | c1 :: t =>
    if c1 = 'd' || c1 = 'D' then
      let cs2 := t.dropWhile isSpaceChar
      let ds := cs2.takeWhile isDigitChar
      if ds.isEmpty then none else some (natOfDigits ds, cs2.dropWhile isDigitChar)
    else none
  | [] => none

/-- Full heading pattern at one position (without the `^` anchor).  The
three alternatives start with incompatible characters, so trying them in
order and then checking the trailing `\b` once is equivalent to the
regex engine's backtracking.  Every match ends in `天` or a digit (word
characters), so `\b` holds iff the next character is absent or
non-word. -/
def matchHeading (cs : List Char) : Option (Nat × List Char) :=
  let cs' := dropHashes cs
  let r := match headAlt1 cs' with
    | some v => some v
    | none => match headAlt2 cs' with
      | some v => some v
      | none => headAlt3 cs'
  match r with
  | some (n, rest) =>
    match rest with
    | [] => some (n, [])
    | c :: _ => if isWordChar c then none else some (n, rest)
  | none => none

/-- Scan (`finditer`) over the multiline-anchored heading pattern: only
positions at the start of a line can match; matches do not overlap.
Returns `(day number, match start, match end)` triples in order.  Fuel
is the remaining length (every step consumes at least one character). -/
def scanHeadingsAux : Nat → List Char → Nat → Bool → List (Nat × Nat × Nat)
  | 0, _, _, _ => []
  | _ + 1, [], _, _ => []
  | fuel + 1, c :: t, pos, lineStart =>
    if lineStart then
      match matchHeading (c :: t) with
      | some (n, rest) =>
        let len := (c :: t).length - rest.length
        (n, pos, pos + len) :: scanHeadingsAux fuel rest (pos + len) false
      | none => scanHeadingsAux fuel t (pos + 1) (c = '\n')
    else scanHeadingsAux fuel t (pos + 1) (c = '\n')

def scanHeadings (cs : List Char) : List (Nat × Nat × Nat) :=
  scanHeadingsAux cs.length cs 0 true

/-- Convert heading matches to `parts` as in the source: each part spans
from its match end to the next match start (or end of document).
Returns `(day number, chunk start, chunk end)`. -/
def toParts : List (Nat × Nat × Nat) → Nat → List (Nat × Nat × Nat)
  | [], _ => []
  | [(n, _, e)], total => [(n, e, total)]
  | (n, _, e) :: (n2, s2, e2) :: rest, total =>
    (n, e, s2) :: toParts ((n2, s2, e2) :: rest) total

/-- Bullet-line cleanup: `line.strip().lstrip("-•*").strip()`. -/
def cleanLine (line : List Char) : List Char :=
  pyStripWs ((pyStripWs line).dropWhile (fun c => c = '-' || c = '•' || c = '*'))

/-- Build one `PlanItem` from a cleaned non-empty line. -/
def mkItem (l : List Char) : PlanItem :=
  let p := splitTitleAndNote l
  { period := detectPeriod l
    title := p.1
    note := p.2
    duration :=
      match extractDurationMinutes l with
      | some d => if d ≠ 0 then some (toString d) else none
      | none => none
    transport := extractTransport l }

/-- Extract bullet items from a day chunk: split lines, clean, drop blank
lines and lines shorter than 2 characters. -/
def extractItems (chunk : List Char) : List PlanItem :=
  (pySplitlines chunk).filterMap (fun line =>
    let l := cleanLine line
    if l.isEmpty then none
    else if l.length < 2 then none
    else some (mkItem l))

/-- Build one parsed `DayPlan` from a `(num, chunkStart, chunkEnd)` part. -/
def mkBlock (cs : List Char) (p : Nat × Nat × Nat) : DayPlan :=
  let chunk := pyStripWs ((cs.drop p.2.1).take (p.2.2 - p.2.1))
  let items := extractItems chunk
  { index := p.1, items := items,
    note := if items.isEmpty then some (String.mk chunk) else none }

/-- Model of `parse_markdown_days`: split markdown by day headings, extract bullet
items, then reconcile to exactly `total_days` entries (days `1..total_days`;
missing days synthesized with an empty note, extra days dropped, duplicate
headings resolved last-wins).  With no heading at all, every day carries
the whole stripped document as its note. -/
def parse_markdown_days (md : String) (total_days : Nat) : List DayPlan :=
  let cs := md.data
  let ms := scanHeadings cs
  if ms.isEmpty then
    (List.range total_days).map (fun i =>
      { index := i + 1, items := [], note := some (String.mk (pyStripWs cs)) })
  else
    let blocks := (toParts ms cs.length).map (mkBlock cs)
    (List.range total_days).map (fun i =>
      match blocks.reverse.find? (fun b => b.index == i + 1) with
      | some b => b
      | none => { index := i + 1, items := [], note := some "" })

/-! ## Schema shape (dataclass `SchemaShape`) -/

structure SchemaShape where
  root : String := "TravelPlan"
  ns : Option String := none
  version_value : Option String := none
  meta : Option String := some "Meta"
  destination : String := "Destination"
  days_tag : String := "Days"
  day_tag : String := "Day"
  day_index_attr : String := "index"
  note : String := "Note"
  items_tag : String := "Items"
  item_tag : String := "Item"
  period_attr : String := "period"
  title : String := "Title"
  location : String := "Location"
  transport : String := "Transport"
  duration : String := "Duration"
  cost : String := "Cost"
  summary : String := "Summary"
  tips : String := "Tips"
  preferences : String := "Preferences"
  budget : String := "Budget"
  days_count : String := "Days"
  mode : String := "default"
  timeline_tag : String := "Timeline"
  event_tag : String := "Event"
  event_type_attr : String := "type"
  event_id_attr : String := "id"
  timeslot_tag : String := "TimeSlot"
  timeslot_day : String := "Day"
  timeslot_start : String := "StartTime"
  timeslot_end : String := "EndTime"
  timeslot_duration : String := "Duration"
  activity_tag : String := "Activity"
  activity_title : String := "Title"
  activity_desc : String := "Description"
  activity_category : String := "Category"
  meta_title : String := "Title"
  meta_total_days : String := "TotalDays"
  meta_destinations : String := "Destinations"
  meta_city : String := "City"
  meta_travel_style : String := "TravelStyle"
  meta_budget : String := "Budget"
  meta_currency : String := "Currency"
  meta_total_estimate : String := "TotalEstimate"
  meta_per_person : String := "PerPerson"
deriving Repr, DecidableEq

/-! ## XML element trees (the subset of ElementTree used by the source) -/

/-- An XML element: tag, ordered attributes, optional text, children.
Event tails are never used by the source. -/
inductive Elem : Type where
  | mk : String → List (String × String) → Option String → List Elem → Elem

def Elem.tag : Elem → String
  | .mk t _ _ _ => t

def Elem.attrib : Elem → List (String × String)
  | .mk _ a _ _ => a

def Elem.text : Elem → Option String
  | .mk _ _ x _ => x

def Elem.children : Elem → List Elem
  | .mk _ _ _ c => c

/-- Namespace qualification `q(name)`: `{ns}name` when a namespace is
set. -/
def qn (ns : Option String) (name : String) : String :=
  match ns with
  | some n => "\x7b" ++ n ++ "\x7d" ++ name
  | none => name

/-- A leaf element with text. -/
def textEl (tag : String) (txt : String) : Elem := Elem.mk tag [] (some txt) []

/-- Two-key attribute dict (ElementTree stores attributes in insertion
order; a duplicate key keeps the last value). -/
def mkAttrs2 (k1 v1 k2 v2 : String) : List (String × String) :=
  if k1 = k2 then [(k1, v2)] else [(k1, v1), (k2, v2)]

/-- Local name of a possibly namespace-qualified tag
(`tag.split('}')[-1]`). -/
def stripNsStr (tag : String) : String :=
  if tag.data.any (fun c => c = '\x7d') then
    String.mk ((tag.data.reverse.takeWhile (fun c => c ≠ '\x7d')).reverse)
  else tag

/-- Model of `_ci_find_child`: the lookup dict keeps the last child per lowered
local name; names are tried in order. -/
def ciFindChild (children : List Elem) (names : List String) : Option Elem :=
  names.findSome? (fun n =>
    children.reverse.find? (fun c => (stripNsStr c.tag).toLower == n.toLower))

def lookupAttr (e : Elem) (k : String) : Option String :=
  (e.attrib.find? (fun p => p.1 == k)).map (fun p => p.2)

def hasAttr (e : Elem) (k : String) : Bool :=
  e.attrib.any (fun p => p.1 == k)

/-! ## XML builder, default days/items mode (`build_xml`) -/

/-- One optional child element, emitted only for a truthy value. -/
def optChildEl (ns : Option String) (tagName : String) (o : Option String) : List Elem :=
  if optStr o then [Elem.mk (qn ns tagName) [] o []] else []

/-- Default-mode item element: period attribute, Title child, then
optional Location/Transport/Duration/Cost/Note children. -/
def itemElem (s : SchemaShape) (it : PlanItem) : Elem :=
  Elem.mk (qn s.ns s.item_tag) [(s.period_attr, it.period)] none
    (Elem.mk (qn s.ns s.title) [] (some it.title) [] ::
      (optChildEl s.ns s.location it.location ++
       optChildEl s.ns s.transport it.transport ++
       optChildEl s.ns s.duration it.duration ++
       optChildEl s.ns s.cost it.cost ++
       optChildEl s.ns s.note it.note))

/-- Default-mode day element: index attribute, optional Note child,
Items container. -/
def dayElem (s : SchemaShape) (d : DayPlan) : Elem :=
  Elem.mk (qn s.ns s.day_tag) [(s.day_index_attr, toString d.index)] none
    ((if optStr d.note then [Elem.mk (qn s.ns s.note) [] d.note []] else []) ++
     [Elem.mk (qn s.ns s.items_tag) [] none (d.items.map (itemElem s))])

/-- Default-mode meta fields: Destination, day count (only when a meta
container and a days-count tag are configured), Budget and Preferences
are always emitted; Summary and Tips only when truthy. -/
def defaultMetaChildren (s : SchemaShape) (plan : TravelPlan) : List Elem :=
  Elem.mk (qn s.ns s.destination) [] (some plan.destination) [] ::
    ((if optStr s.meta && strB s.days_count then
        [Elem.mk (qn s.ns s.days_count) [] (some (toString plan.days)) []]
      else []) ++
     [Elem.mk (qn s.ns s.budget) [] (some plan.budget) [],
      Elem.mk (qn s.ns s.preferences) [] (some plan.preferences) []] ++
     (if optStr plan.summary then [Elem.mk (qn s.ns s.summary) [] plan.summary []] else []) ++
     (if optStr plan.tips then [Elem.mk (qn s.ns s.tips) [] plan.tips []] else []))

def defaultDaysEl (s : SchemaShape) (plan : TravelPlan) : Elem :=
  Elem.mk (qn s.ns s.days_tag) [] none (plan.daily.map (dayElem s))

/-! ## XML builder, timeline mode synthesized from a TravelPlan -/

/-- Default time window per period. -/
def timeRange (p : String) : String × String :=
  if p = "morning" then ("09:00", "12:00")
  else if p = "afternoon" then ("13:30", "17:00")
  else if p = "evening" then ("18:30", "21:00")
  else ("10:00", "12:00")

/-- Event type inferred from period. -/
def eventType (p : String) : String :=
  if p = "morning" || p = "afternoon" then "attraction"
  else if p = "evening" then "dining"
  else "custom"

/-- Python `str.isdigit` restricted to ASCII digits. -/
def pyIsDigit (s : String) : Bool := !s.data.isEmpty && s.data.all isDigitChar

/-- Append a SharedTransport to the (case-insensitively found, last
occurrence) Participants child, creating one if absent. -/
def attachTransport (s : SchemaShape) (children : List Elem) (tr : String) : List Elem :=
  let shared := Elem.mk (qn s.ns "SharedTransport") [] (some tr) []
  let isParts := fun (c : Elem) => (stripNsStr c.tag).toLower == "participants"
  if children.any isParts then
    let lastIdx := children.length - 1 -
      (children.reverse.findIdx isParts)
    children.enum.map (fun p =>
      if p.1 = lastIdx then
        Elem.mk p.2.tag p.2.attrib p.2.text (p.2.children ++ [shared])
      else p.2)
  else children ++ [Elem.mk (qn s.ns "Participants") [] none [shared]]

/-- Timeline event synthesized for an itemless day: a rest event with
the day's note as description. -/
def restEvent (s : SchemaShape) (d : DayPlan) : Elem :=
  Elem.mk (qn s.ns s.event_tag)
    (mkAttrs2 s.event_id_attr ("d" ++ toString d.index ++ "-rest") s.event_type_attr "rest")
    none
    [Elem.mk (qn s.ns s.timeslot_tag) [] none
      [textEl (qn s.ns s.timeslot_day) (toString d.index),
       textEl (qn s.ns s.timeslot_start) "10:00"],
     Elem.mk (qn s.ns s.activity_tag) [] none
      (textEl (qn s.ns s.activity_title) "自由活动/休息" ::
       (if optStr d.note then [Elem.mk (qn s.ns s.activity_desc) [] d.note []] else []))]

/-- Timeline event synthesized from one plan item (1-based index within
its day). -/
def itemEvent (s : SchemaShape) (dayIdx : Nat) (idx : Nat) (it : PlanItem) : Elem :=
  let etype := eventType it.period
  let tr := timeRange it.period
  let ts := Elem.mk (qn s.ns s.timeslot_tag) [] none
    ([textEl (qn s.ns s.timeslot_day) (toString dayIdx),
      textEl (qn s.ns s.timeslot_start) tr.1,
      textEl (qn s.ns s.timeslot_end) tr.2] ++
     (if optStr it.duration && pyIsDigit (it.duration.getD "") then
        [Elem.mk (qn s.ns s.timeslot_duration) [] it.duration []]
      else []))
  let cat := if etype = "attraction" then "景点" else if etype = "dining" then "餐饮" else "活动"
  let act := Elem.mk (qn s.ns s.activity_tag) [] none
    ([textEl (qn s.ns s.activity_title) it.title,
      textEl (qn s.ns s.activity_category) cat] ++
     (if optStr it.note then [Elem.mk (qn s.ns s.activity_desc) [] it.note []] else []))
  let base := [ts, act]
  Elem.mk (qn s.ns s.event_tag)
    (mkAttrs2 s.event_id_attr ("d" ++ toString dayIdx ++ "-" ++ toString idx) s.event_type_attr etype)
    none
    (match it.transport with
     | some t => if strB t then attachTransport s base t else base
     | none => base)

def dayEvents (s : SchemaShape) (d : DayPlan) : List Elem :=
  if d.items.isEmpty then [restEvent s d]
  else d.items.enum.map (fun p => itemEvent s d.index (p.1 + 1) p.2)

/-- Timeline-mode meta fields synthesized from a TravelPlan. -/
def timelineMetaChildren (s : SchemaShape) (plan : TravelPlan) : List Elem :=
  [textEl (qn s.ns s.meta_title) (plan.destination ++ " " ++ toString plan.days ++ "天行程"),
   (match plan.summary with
    | some sm => if sm ≠ "" then textEl (qn s.ns s.summary) sm
        else textEl (qn s.ns s.summary) ("偏好：" ++ plan.preferences ++ "；预算：" ++ plan.budget)
    | none => textEl (qn s.ns s.summary) ("偏好：" ++ plan.preferences ++ "；预算：" ++ plan.budget)),
   textEl (qn s.ns s.meta_total_days) (toString plan.days),
   Elem.mk (qn s.ns s.meta_destinations) [] none
     [textEl (qn s.ns s.meta_city) plan.destination],
   textEl (qn s.ns s.meta_travel_style) plan.preferences,
   Elem.mk (qn s.ns s.meta_budget) [] none [textEl (qn s.ns s.meta_currency) "CNY"]]

/-- Model of `build_xml`: render a TravelPlan under the resolved shape, in the
mode selected by the shape. -/
def build_xml (plan : TravelPlan) (shape : Option SchemaShape) : Elem :=
  let s := shape.getD {}
  let version := pyOrS s.version_value "1.0"
  if s.mode = "timeline" then
    let timeline := Elem.mk (qn s.ns s.timeline_tag) [] none
      ((plan.daily.map (dayEvents s)).flatten)
    Elem.mk (qn s.ns s.root) [("version", version)] none
      (match s.meta with
       | some m => if m ≠ "" then
             [Elem.mk (qn s.ns m) [] none (timelineMetaChildren s plan), timeline]
           else timelineMetaChildren s plan ++ [timeline]
       | none => timelineMetaChildren s plan ++ [timeline])
  else
    Elem.mk (qn s.ns s.root) [("version", version)] none
      (match s.meta with
       | some m => if m ≠ "" then
             [Elem.mk (qn s.ns m) [] none (defaultMetaChildren s plan), defaultDaysEl s plan]
           else defaultMetaChildren s plan ++ [defaultDaysEl s plan]
       | none => defaultMetaChildren s plan ++ [defaultDaysEl s plan])

/-! ## JSON values and `json.loads` -/

/-- JSON values as produced by `json.loads`.  Integer literals map to
`num`; literals with a fraction or exponent map to `fnum` (mantissa and
decimal exponent) — exact where Python floats might round, which no
claim exercises. -/
inductive Jv : Type where
  | null : Jv
  | bool : Bool → Jv
  | num : Int → Jv
  | fnum : Int → Int → Jv
  | str : String → Jv
  | arr : List Jv → Jv
  | obj : List (String × Jv) → Jv

/-- Python truthiness of a JSON value. -/
def Jv.truthy : Jv → Bool
  | .null => false
  | .bool b => b
  | .num n => n != 0
  | .fnum m _ => m != 0
  | .str s => !(s == "")
  | .arr xs => !xs.isEmpty
  | .obj kvs => !kvs.isEmpty

/-- Python `str()` of a JSON value, for the scalar values the builder
applies it to (containers are abbreviated; the source never renders
them on the claim-relevant paths). -/
def Jv.pyStr : Jv → String
  | .null => "None"
  | .bool true => "True"
  | .bool false => "False"
  | .num n => toString n
  | .fnum m e => toString m ++ "e" ++ toString e
  | .str s => s
  | .arr _ => "[...]"
  | .obj _ => "\x7b...\x7d"

/-- Dict lookup (`d.get(k)`); keys are unique after parsing. -/
def jGet (kvs : List (String × Jv)) (k : String) : Option Jv :=
  (kvs.reverse.find? (fun p => p.1 == k)).map (fun p => p.2)

/-- Lookup `v.get(k)` where `v` is expected to be an object. -/
def jvGet (v : Jv) (k : String) : Option Jv :=
  match v with
  | .obj kvs => jGet kvs k
  | _ => none

/-- Value `v or` empty dict, then viewed as an object's entries. -/
def jObjEntries (o : Option Jv) : List (String × Jv) :=
  match o with
  | some (.obj kvs) => kvs
  | _ => []

/-- Python iteration over a JSON value (`for x in v`): arrays yield
elements, strings yield 1-character strings, objects yield keys. -/
def jIter : Jv → List Jv
  | .arr xs => xs
  | .str s => s.data.map (fun c => Jv.str (String.mk [c]))
  | .obj kvs => kvs.map (fun p => Jv.str p.1)
  | _ => []

/-- Chain `A or dfl` followed by `str(...)`: the value's string if truthy,
else the default string. -/
def jOrS (o : Option Jv) (dfl : String) : String :=
  match o with
  | some v => if v.truthy then v.pyStr else dfl
  | none => dfl

/-- Whether `get(k)` is truthy. -/
def jTruthy (o : Option Jv) : Bool :=
  match o with
  | some v => v.truthy
  | none => false

/-- Whether `get(k) is not None` (JSON null parses to Python None). -/
def jNotNone (o : Option Jv) : Bool :=
  match o with
  | some .null => false
  | some _ => true
  | none => false

/-- JSON whitespace accepted by `json.loads`. -/
def jsonWs (c : Char) : Bool := c = ' ' || c = '\t' || c = '\n' || c = '\r'

/-- Value of one hexadecimal digit, by code point ranges. -/
def hexVal (c : Char) : Option Nat :=
  let n := c.toNat
  if 48 ≤ n && n ≤ 57 then some (n - 48)
  else if 97 ≤ n && n ≤ 102 then some (n - 87)
  else if 65 ≤ n && n ≤ 70 then some (n - 55)
  else none

/-- Value of a four-hex-digit escape payload. -/
def hex4Val (h1 h2 h3 h4 : Char) : Option Nat :=
  [h1, h2, h3, h4].foldl
    (fun acc c => acc.bind (fun a => (hexVal c).map (fun v => a * 16 + v)))
    (some 0)

/-- Python dict construction semantics for duplicate keys: the first
occurrence keeps its position, the last value wins. -/
def upsertKv (acc : List (String × Jv)) (kv : String × Jv) : List (String × Jv) :=
  if acc.any (fun p => p.1 == kv.1) then
    acc.map (fun p => if p.1 == kv.1 then (p.1, kv.2) else p)
  else acc ++ [kv]

def dedupKvs (kvs : List (String × Jv)) : List (String × Jv) :=
  kvs.foldl upsertKv []

/-- JSON string body after the opening quote. -/
def parseStringBody : Nat → List Char → List Char → Option (String × List Char)
  | 0, _, _ => none
  | _ + 1, _, [] => none
  | fuel + 1, acc, c :: t =>
    if c = '"' then some (String.mk acc.reverse, t)
    else if c = '\\' then
      match t with
      | 'u' :: h1 :: h2 :: h3 :: h4 :: r =>
        match hex4Val h1 h2 h3 h4 with
        | some v => parseStringBody fuel (Char.ofNat v :: acc) r
        | none => none
      | e :: r =>
        let esc : Option Char :=
          if e = '"' then some '"' else if e = '\\' then some '\\'
          else if e = '/' then some '/' else if e = 'b' then some '\x08'
          else if e = 'f' then some '\x0c' else if e = 'n' then some '\n'
          else if e = 'r' then some '\r' else if e = 't' then some '\t'
          else none
        match esc with
        | some ch => parseStringBody fuel (ch :: acc) r
        | none => none
      | [] => none
    else if c.toNat < 0x20 then none
    else parseStringBody fuel (c :: acc) t

/-- JSON number per RFC 8259 / `json.loads` strictness.  Returns the
value and the rest. -/
def parseNumberTok (cs : List Char) : Option (Jv × List Char) :=
  let (neg, cs1) := match cs with
    | '-' :: t => (true, t)
    | _ => (false, cs)
  let ds := cs1.takeWhile isDigitChar
  if ds.isEmpty then none
  else if ds.length > 1 && ds.headD '0' = '0' then none
  else
    let r1 := cs1.dropWhile isDigitChar
    let (fs, r2) := match r1 with
      | '.' :: t =>
        let f := t.takeWhile isDigitChar
        if f.isEmpty then ([], r1) else (f, t.dropWhile isDigitChar)
      | _ => ([], r1)
    let hasFrac := !fs.isEmpty
    if (match r1 with | '.' :: _ => !hasFrac | _ => false) then none
    else
      let expRes : Option (Option Int × List Char) := match r2 with
        | 'e' :: t =>
          let (esgn, t2) := match t with
            | '+' :: u => ((1 : Int), u)
            | '-' :: u => ((-1 : Int), u)
            | _ => ((1 : Int), t)
          let es := t2.takeWhile isDigitChar
          if es.isEmpty then none
          else some (some (esgn * Int.ofNat (natOfDigits es)), t2.dropWhile isDigitChar)
        | 'E' :: t =>
          let (esgn, t2) := match t with
            | '+' :: u => ((1 : Int), u)
            | '-' :: u => ((-1 : Int), u)
            | _ => ((1 : Int), t)
          let es := t2.takeWhile isDigitChar
          if es.isEmpty then none
          else some (some (esgn * Int.ofNat (natOfDigits es)), t2.dropWhile isDigitChar)
        | _ => some (none, r2)
      match expRes with
      | none => none
      | some (expo, rest) =>
        let sgn : Int := if neg then -1 else 1
        if !hasFrac && expo.isNone then
          some (.num (sgn * Int.ofNat (natOfDigits ds)), rest)
        else
          let m := sgn * Int.ofNat (natOfDigits ds * 10 ^ fs.length + natOfDigits fs)
          some (.fnum m (expo.getD 0 - Int.ofNat fs.length), rest)

mutual

def parseJsonVal (fuel : Nat) (cs : List Char) : Option (Jv × List Char) :=
  match fuel with
  | 0 => none
  | fuel + 1 =>
    let cs := cs.dropWhile jsonWs
    match cs with
    | 'n' :: 'u' :: 'l' :: 'l' :: t => some (.null, t)
    | 't' :: 'r' :: 'u' :: 'e' :: t => some (.bool true, t)
    | 'f' :: 'a' :: 'l' :: 's' :: 'e' :: t => some (.bool false, t)
    | '"' :: t => (parseStringBody (t.length + 1) [] t).map (fun p => (.str p.1, p.2))
    | '\x7b' :: t => parseJsonObjBody fuel t
    | '[' :: t => parseJsonArrBody fuel t
    | _ => parseNumberTok cs

/-- Object body after `{`. -/
def parseJsonObjBody (fuel : Nat) (cs : List Char) : Option (Jv × List Char) :=
  match fuel with
  | 0 => none
  | fuel + 1 =>
    let cs := cs.dropWhile jsonWs
    match cs with
    | '\x7d' :: t => some (.obj [], t)
    | _ => parseJsonMembers fuel cs []

/-- Object members, starting at a key. -/
def parseJsonMembers (fuel : Nat) (cs : List Char) (acc : List (String × Jv)) :
    Option (Jv × List Char) :=
  match fuel with
  | 0 => none
  | fuel + 1 =>
    let cs := cs.dropWhile jsonWs
    match cs with
    | '"' :: t =>
      match parseStringBody (t.length + 1) [] t with
      | none => none
      | some (k, r1) =>
        match r1.dropWhile jsonWs with
        | ':' :: r2 =>
          match parseJsonVal fuel r2 with
          | none => none
          | some (v, r3) =>
            match r3.dropWhile jsonWs with
            | ',' :: r4 => parseJsonMembers fuel r4 ((k, v) :: acc)
            | '\x7d' :: r4 => some (.obj (dedupKvs (((k, v) :: acc).reverse)), r4)
            | _ => none
        | _ => none
    | _ => none

def parseJsonArrBody (fuel : Nat) (cs : List Char) : Option (Jv × List Char) :=
  match fuel with
  | 0 => none
  | fuel + 1 =>
    let cs := cs.dropWhile jsonWs
    match cs with
    | ']' :: t => some (.arr [], t)
    | _ => parseJsonElems fuel cs []

def parseJsonElems (fuel : Nat) (cs : List Char) (acc : List Jv) : Option (Jv × List Char) :=
  match fuel with
  | 0 => none
  | fuel + 1 =>
    match parseJsonVal fuel cs with
    | none => none
    | some (v, r1) =>
      match r1.dropWhile jsonWs with
      | ',' :: r2 => parseJsonElems fuel r2 (v :: acc)
      | ']' :: r2 => some (.arr ((v :: acc).reverse), r2)
      | _ => none

end

/-- Model of `json.loads`: parse a complete document, allowing only trailing
whitespace. -/
def parseJson (s : String) : Option Jv :=
  match parseJsonVal (4 * (s.data.length + 1)) s.data with
  | some (v, rest) => if (rest.dropWhile jsonWs).isEmpty then some v else none
  | none => none

/-! ## Structured-JSON XML builder (`build_xml_from_json`) -/

/-- The `fallback_meta` dict passed by `export_xml`. -/
structure FallbackMeta where
  destination : String
  totalDays : Nat
  budget : String
  travelStyle : String
  summary : Option String
deriving Repr, DecidableEq

/-- Chain `meta.get(k) or fallbackNat` followed by truthiness and `str()`. -/
def jOrNat (o : Option Jv) (n : Nat) : Option String :=
  match o with
  | some v => if v.truthy then some v.pyStr else (if n ≠ 0 then some (toString n) else none)
  | none => if n ≠ 0 then some (toString n) else none

/-- Chain `meta.get(k) or fallbackStr` followed by truthiness and `str()`. -/
def jOrStrOpt (o : Option Jv) (d : String) : Option String :=
  match o with
  | some v => if v.truthy then some v.pyStr else (if d ≠ "" then some d else none)
  | none => if d ≠ "" then some d else none

/-- Person element under meta Participants. -/
def personEl (ns : Option String) (p : Jv) : Elem :=
  Elem.mk (qn ns "Person")
    (if jTruthy (jvGet p "id") then [("id", ((jvGet p "id").getD .null).pyStr)] else [])
    none
    ((if jTruthy (jvGet p "name") then [textEl (qn ns "Name") ((jvGet p "name").getD .null).pyStr] else []) ++
     (if jTruthy (jvGet p "role") then [textEl (qn ns "Role") ((jvGet p "role").getD .null).pyStr] else []) ++
     (if jTruthy (jvGet p "departureFrom") then
        [textEl (qn ns "DepartureFrom") ((jvGet p "departureFrom").getD .null).pyStr]
      else []))

/-- Meta fields of the JSON path (literal tag names in the source). -/
def jsonMetaChildren (s : SchemaShape) (meta : List (String × Jv)) (fb : FallbackMeta) : List Elem :=
  let titleS := jOrS (jGet meta "title") (fb.destination ++ " " ++ toString fb.totalDays ++ "天行程")
  let summaryS := jOrS (jGet meta "summary")
    (if optStr fb.summary then fb.summary.getD ""
     else "偏好：" ++ fb.travelStyle ++ "；预算：" ++ fb.budget)
  let bmKvs := jObjEntries (jGet meta "budget")
  textEl (qn s.ns "Title") titleS ::
    ((if summaryS ≠ "" then [textEl (qn s.ns "Summary") summaryS] else []) ++
     (match jOrNat (jGet meta "totalDays") fb.totalDays with
      | some t => [textEl (qn s.ns "TotalDays") t]
      | none => []) ++
     (if fb.destination ≠ "" then
        [Elem.mk (qn s.ns "Destinations") [] none
          ((match jGet meta "destinations" with
            | some v => if v.truthy then jIter v else [Jv.str fb.destination]
            | none => [Jv.str fb.destination]).map
            (fun (c : Jv) => textEl (qn s.ns "City") c.pyStr))]
      else []) ++
     (match jOrStrOpt (jGet meta "travelStyle") fb.travelStyle with
      | some t => [textEl (qn s.ns "TravelStyle") t]
      | none => []) ++
     (if jTruthy (jGet meta "participants") then
        [Elem.mk (qn s.ns "Participants") [] none
          ((jIter ((jGet meta "participants").getD .null)).map (personEl s.ns))]
      else []) ++
     (if ["currency", "totalEstimate", "perPerson"].any
          (fun k => bmKvs.any (fun p => p.1 == k)) then
        [Elem.mk (qn s.ns "Budget") [] none
          ((if jTruthy (jGet bmKvs "currency") then
              [textEl (qn s.ns "Currency") ((jGet bmKvs "currency").getD .null).pyStr]
            else []) ++
           (if jNotNone (jGet bmKvs "totalEstimate") then
              [textEl (qn s.ns "TotalEstimate") ((jGet bmKvs "totalEstimate").getD .null).pyStr]
            else []) ++
           (if jNotNone (jGet bmKvs "perPerson") then
              [textEl (qn s.ns "PerPerson") ((jGet bmKvs "perPerson").getD .null).pyStr]
            else []))]
      else []))

/-- PersonRef element under an event's Participants. -/
def personRefEl (ns : Option String) (pr : Jv) : Elem :=
  Elem.mk (qn ns "PersonRef")
    (if jTruthy (jvGet pr "id") then [("id", ((jvGet pr "id").getD .null).pyStr)] else [])
    none
    ((if jTruthy (jvGet pr "transport") then
        [textEl (qn ns "Transport") ((jvGet pr "transport").getD .null).pyStr]
      else []) ++
     (if jTruthy (jvGet pr "route") then
        [textEl (qn ns "Route") ((jvGet pr "route").getD .null).pyStr]
      else []))

/-- Location element under an event's Locations. -/
def locationEl (ns : Option String) (loc : Jv) : Elem :=
  let coords := jObjEntries (jvGet loc "coordinates")
  Elem.mk (qn ns "Location")
    (if jTruthy (jvGet loc "type") then [("type", ((jvGet loc "type").getD .null).pyStr)] else [])
    none
    ((if jTruthy (jvGet loc "name") then [textEl (qn ns "Name") ((jvGet loc "name").getD .null).pyStr] else []) ++
     (if jTruthy (jvGet loc "address") then
        [textEl (qn ns "Address") ((jvGet loc "address").getD .null).pyStr]
      else []) ++
     (if coords.any (fun p => p.1 == "lat" || p.1 == "lng") then
        [Elem.mk (qn ns "Coordinates")
          ((if jNotNone (jGet coords "lat") then [("lat", ((jGet coords "lat").getD .null).pyStr)] else []) ++
           (if jNotNone (jGet coords "lng") then [("lng", ((jGet coords "lng").getD .null).pyStr)] else []))
          none []]
      else []))

/-- Breakdown item element under an event's Budget. -/
def breakdownItemEl (ns : Option String) (item : Jv) : Elem :=
  Elem.mk (qn ns "Item")
    ((if jTruthy (jvGet item "person") then
        [("person", ((jvGet item "person").getD .null).pyStr)]
      else []) ++
     (if jNotNone (jvGet item "amount") then
        [("amount", ((jvGet item "amount").getD .null).pyStr)]
      else []))
    (some (jOrS (jvGet item "text") ""))
    []

/-- One timeline event rendered from a JSON event object (1-based
position `i` for the fallback id). -/
def jsonEventEl (s : SchemaShape) (i : Nat) (evd : Jv) : Elem :=
  let etype := jOrS (jvGet evd "type") "custom"
  let eid := jOrS (jvGet evd "id") ("e" ++ toString i)
  let ts := Elem.mk (qn s.ns s.timeslot_tag) [] none
    ((if jNotNone (jvGet evd "day") then
        [textEl (qn s.ns s.timeslot_day) ((jvGet evd "day").getD .null).pyStr]
      else []) ++
     (if jTruthy (jvGet evd "start") then
        [textEl (qn s.ns s.timeslot_start) ((jvGet evd "start").getD .null).pyStr]
      else []) ++
     (if jTruthy (jvGet evd "end") then
        [textEl (qn s.ns s.timeslot_end) ((jvGet evd "end").getD .null).pyStr]
      else []) ++
     (if jNotNone (jvGet evd "durationMinutes") then
        [textEl (qn s.ns s.timeslot_duration) ((jvGet evd "durationMinutes").getD .null).pyStr]
      else []))
  let act := jObjEntries (jvGet evd "activity")
  let actEl := Elem.mk (qn s.ns s.activity_tag) [] none
    ((if jTruthy (jGet act "title") then
        [textEl (qn s.ns s.activity_title) ((jGet act "title").getD .null).pyStr]
      else []) ++
     (if jTruthy (jGet act "description") then
        [textEl (qn s.ns s.activity_desc) ((jGet act "description").getD .null).pyStr]
      else []) ++
     (if jTruthy (jGet act "category") then
        [textEl (qn s.ns s.activity_category) ((jGet act "category").getD .null).pyStr]
      else []) ++
     (if jTruthy (jGet act "highlights") then
        [Elem.mk (qn s.ns "Highlights") [] none
          ((jIter ((jGet act "highlights").getD .null)).map
            (fun h => textEl (qn s.ns "Item") h.pyStr))]
      else []))
  let pv := (jvGet evd "participants").getD .null
  let partsEls :=
    if pv.truthy then
      [Elem.mk (qn s.ns "Participants")
        (if jTruthy (jvGet pv "all") then [("all", "true")] else [])
        none
        (if jTruthy (jvGet pv "personRefs") then
           (jIter ((jvGet pv "personRefs").getD .null)).map (personRefEl s.ns)
         else
           (if jTruthy (jvGet pv "sharedTransport") then
              [textEl (qn s.ns "SharedTransport") ((jvGet pv "sharedTransport").getD .null).pyStr]
            else []) ++
           (if jTruthy (jvGet pv "route") then
              [textEl (qn s.ns "Route") ((jvGet pv "route").getD .null).pyStr]
            else []))]
    else []
  let locsEls :=
    if jTruthy (jvGet evd "locations") then
      [Elem.mk (qn s.ns "Locations") [] none
        ((jIter ((jvGet evd "locations").getD .null)).map (locationEl s.ns))]
    else []
  let bv := (jvGet evd "budget").getD .null
  let budgetEls :=
    if bv.truthy then
      [Elem.mk (qn s.ns "Budget") [] none
        ((if jNotNone (jvGet bv "estimated") then
            [textEl (qn s.ns "Estimated") ((jvGet bv "estimated").getD .null).pyStr]
          else []) ++
         (if jTruthy (jvGet bv "category") then
            [textEl (qn s.ns "Category") ((jvGet bv "category").getD .null).pyStr]
          else []) ++
         (if jNotNone (jvGet bv "perPerson") then
            [textEl (qn s.ns "PerPerson") ((jvGet bv "perPerson").getD .null).pyStr]
          else []) ++
         (if jTruthy (jvGet bv "breakdown") then
            [Elem.mk (qn s.ns "Breakdown") [] none
              ((jIter ((jvGet bv "breakdown").getD .null)).map (breakdownItemEl s.ns))]
          else []))]
    else []
  Elem.mk (qn s.ns s.event_tag)
    (mkAttrs2 s.event_id_attr eid s.event_type_attr etype)
    none
    ([ts, actEl] ++ partsEls ++ locsEls ++ budgetEls)

/-- The timeline container of the JSON path (always emitted). -/
def renderJsonTimeline (s : SchemaShape) (data : Jv) : Elem :=
  Elem.mk (qn s.ns s.timeline_tag) [] none
    ((if jTruthy (jvGet data "timeline") then
        jIter ((jvGet data "timeline").getD .null)
      else []).enum.map (fun p => jsonEventEl s (p.1 + 1) p.2))

/-- Whether a JSON value is a dict. -/
def jvIsObj : Jv → Bool
  | .obj _ => true
  | _ => false

/-- Whether iterating a JSON value raises TypeError in Python (numbers
and booleans are not iterable; strings, lists and dicts are). -/
def jvIsNumLike : Jv → Bool
  | .num _ => true
  | .fnum _ _ => true
  | .bool _ => true
  | _ => false

/-- Whether the `any(k in budget_meta ...)` test over the meta budget
value raises or dereferences a non-dict: a truthy number or boolean
fails the `in` test; a string or list passes it but then crashes on
`.get` exactly when the membership test finds one of the three keys
(substring containment for strings, element equality for lists); dicts
never raise here. -/
def jsonBudgetMetaRaises (bV : Jv) : Bool :=
  match bV with
  | .num n => n != 0
  | .fnum m _ => m != 0
  | .bool b => b
  | .str s =>
    containsSub s.data "currency".data || containsSub s.data "totalEstimate".data ||
    containsSub s.data "perPerson".data
  | .arr xs =>
    xs.any (fun x =>
      match x with
      | .str s => s == "currency" || s == "totalEstimate" || s == "perPerson"
      | _ => false)
  | _ => false

/-- Whether rendering one location raises: a truthy non-dict
`coordinates` value has no `.keys()`. -/
def jsonLocRaises (loc : Jv) : Bool :=
  let cV := (jvGet loc "coordinates").getD .null
  cV.truthy && !jvIsObj cV

/-- Whether rendering one timeline event (already known to be a dict)
raises: truthy non-dict `activity`/`participants`/`budget` values have
no `.get`; non-iterable `highlights`/`personRefs`/`locations`/
`breakdown` values, or their non-dict elements, crash on iteration or
on `.get`. -/
def jsonEventRaises (evd : Jv) : Bool :=
  let aV := (jvGet evd "activity").getD .null
  let hV := (jGet (jObjEntries (jvGet evd "activity")) "highlights").getD .null
  let pV := (jvGet evd "participants").getD .null
  let prs := (jvGet pV "personRefs").getD .null
  let lV := (jvGet evd "locations").getD .null
  let bV := (jvGet evd "budget").getD .null
  let brV := (jvGet bV "breakdown").getD .null
  (aV.truthy && !jvIsObj aV) ||
  (hV.truthy && jvIsNumLike hV) ||
  (pV.truthy && (!jvIsObj pV ||
    (prs.truthy && (jvIsNumLike prs || (jIter prs).any (fun x => !jvIsObj x))))) ||
  (lV.truthy && (jvIsNumLike lV ||
    (jIter lV).any (fun loc => !jvIsObj loc || jsonLocRaises loc))) ||
  (bV.truthy && (!jvIsObj bV ||
    (brV.truthy && (jvIsNumLike brV || (jIter brV).any (fun x => !jvIsObj x)))))

/-- Whether `build_xml_from_json` raises an uncaught exception in the
source on this input (nothing catches it, so no tree is produced):
`data.get` needs a dict; a truthy non-dict `meta` crashes on
`meta.get`; a non-iterable `destinations` value crashes when a fallback
destination forces the iteration; `participants` must iterate to dicts;
the meta `budget` membership test raises per `jsonBudgetMetaRaises`;
and `timeline` must iterate to event dicts that satisfy
`jsonEventRaises = false`.  Checked against the source on all of these
shapes. -/
def jsonBuildRaises (data : Jv) (fb : FallbackMeta) : Bool :=
  if !jvIsObj data then true
  else
    let mRaw := (jvGet data "meta").getD .null
    if mRaw.truthy && !jvIsObj mRaw then true
    else
      let mkvs := jObjEntries (jvGet data "meta")
      let dV := (jGet mkvs "destinations").getD .null
      let pV := (jGet mkvs "participants").getD .null
      let bV := (jGet mkvs "budget").getD .null
      let tV := (jvGet data "timeline").getD .null
      (fb.destination != "" && dV.truthy && jvIsNumLike dV) ||
      (pV.truthy && (jvIsNumLike pV || (jIter pV).any (fun x => !jvIsObj x))) ||
      jsonBudgetMetaRaises bV ||
      (tV.truthy && (jvIsNumLike tV ||
        (jIter tV).any (fun evd => !jvIsObj evd || jsonEventRaises evd)))

/-- Model of `build_xml_from_json`: render a structured JSON plan.  The shape's
`mode` field is never consulted — the timeline container is always
emitted.  The source raises uncaught AttributeError/TypeError on
ill-typed values (e.g. a truthy non-dict `meta` crashes on
`meta.get("title")`) and then produces no tree at all; this model is
total, so it mirrors the source exactly on the inputs where
`jsonBuildRaises` is `false`, and theorems about the source's output
carry that hypothesis. -/
def build_xml_from_json (data : Jv) (fb : FallbackMeta) (shape : Option SchemaShape) : Elem :=
  let s := shape.getD {}
  let version := pyOrS s.version_value "1.0"
  let metaKvs := jObjEntries (jvGet data "meta")
  let metaCh := jsonMetaChildren s metaKvs fb
  Elem.mk (qn s.ns s.root) [("version", version)] none
    ((match s.meta with
      | some m => if m ≠ "" then [Elem.mk (qn s.ns m) [] none metaCh] else metaCh
      | none => metaCh) ++
     [renderJsonTimeline s data])

/-! ## Embedded-JSON extractor (`_extract_plan_json`) -/

/-- The backquote character, kept out of source text. -/
def bqChar : Char := Char.ofNat 96

def fenceJson : List Char := [bqChar, bqChar, bqChar, 'j', 's', 'o', 'n']

def fence3 : List Char := [bqChar, bqChar, bqChar]

/-- Lazy body scan of pattern fragment `(\{[\s\S]*?\})\s*` followed by
the closing fence: stop at the first `}` after which, past whitespace,
a fence follows.  Returns the brace-delimited body and the rest after
the closing fence. -/
def fencedBodyScan : List Char → List Char → Option (List Char × List Char)
  | _, [] => none
  | acc, c :: t =>
    if c = '\x7d' && fence3.isPrefixOf (t.dropWhile isSpaceChar) then
      some (('\x7d' :: acc).reverse, (t.dropWhile isSpaceChar).drop 3)
    else fencedBodyScan (c :: acc) t

/-- Try the fenced-block pattern anchored at this position. -/
def fencedAt (cs : List Char) : Option (List Char × List Char) :=
  if fenceJson.isPrefixOf cs then
    match (cs.drop 7).dropWhile isSpaceChar with
    | '\x7b' :: t => fencedBodyScan ['\x7b'] t
    | _ => none
  else none

/-- Leftmost match of the fenced-block pattern (`re.search`). -/
def firstFencedFrom : List Char → Option (List Char × List Char)
  | [] => none
  | c :: t =>
    match fencedAt (c :: t) with
    | some r => some r
    | none => firstFencedFrom t

/-- All successive non-overlapping fenced-json bodies (not part of the
source, which only ever looks at the first; used to state that fact). -/
def allFencedBodies : Nat → List Char → List (List Char)
  | 0, _ => []
  | fuel + 1, cs =>
    match firstFencedFrom cs with
    | some (body, rest) => body :: allFencedBodies fuel rest
    | none => []

/-- Model of `_extract_plan_json`: first fenced `json` block, parsed; malformed
JSON yields `none` without error. -/
def extract_plan_json (md : String) : Option Jv :=
  (firstFencedFrom md.data).bind (fun p => parseJson (String.mk p.1))

/-! ## Schema map loader and inference (`_shape_from_map`,
`_infer_shape_from_example`) -/

/-- Model of `setattr` for the known SchemaShape fields (`hasattr` guard). -/
def setShapeField (s : SchemaShape) (k : String) (v : String) : SchemaShape :=
  if k = "root" then { s with root := v }
  else if k = "ns" then { s with ns := some v }
  else if k = "version_value" then { s with version_value := some v }
  else if k = "meta" then { s with meta := some v }
  else if k = "destination" then { s with destination := v }
  else if k = "days_tag" then { s with days_tag := v }
  else if k = "day_tag" then { s with day_tag := v }
  else if k = "day_index_attr" then { s with day_index_attr := v }
  else if k = "note" then { s with note := v }
  else if k = "items_tag" then { s with items_tag := v }
  else if k = "item_tag" then { s with item_tag := v }
  else if k = "period_attr" then { s with period_attr := v }
  else if k = "title" then { s with title := v }
  else if k = "location" then { s with location := v }
  else if k = "transport" then { s with transport := v }
  else if k = "duration" then { s with duration := v }
  else if k = "cost" then { s with cost := v }
  else if k = "summary" then { s with summary := v }
  else if k = "tips" then { s with tips := v }
  else if k = "preferences" then { s with preferences := v }
  else if k = "budget" then { s with budget := v }
  else if k = "days_count" then { s with days_count := v }
  else if k = "mode" then { s with mode := v }
  else if k = "timeline_tag" then { s with timeline_tag := v }
  else if k = "event_tag" then { s with event_tag := v }
  else if k = "event_type_attr" then { s with event_type_attr := v }
  else if k = "event_id_attr" then { s with event_id_attr := v }
  else if k = "timeslot_tag" then { s with timeslot_tag := v }
  else if k = "timeslot_day" then { s with timeslot_day := v }
  else if k = "timeslot_start" then { s with timeslot_start := v }
  else if k = "timeslot_end" then { s with timeslot_end := v }
  else if k = "timeslot_duration" then { s with timeslot_duration := v }
  else if k = "activity_tag" then { s with activity_tag := v }
  else if k = "activity_title" then { s with activity_title := v }
  else if k = "activity_desc" then { s with activity_desc := v }
  else if k = "activity_category" then { s with activity_category := v }
  else if k = "meta_title" then { s with meta_title := v }
  else if k = "meta_total_days" then { s with meta_total_days := v }
  else if k = "meta_destinations" then { s with meta_destinations := v }
  else if k = "meta_city" then { s with meta_city := v }
  else if k = "meta_travel_style" then { s with meta_travel_style := v }
  else if k = "meta_budget" then { s with meta_budget := v }
  else if k = "meta_currency" then { s with meta_currency := v }
  else if k = "meta_total_estimate" then { s with meta_total_estimate := v }
  else if k = "meta_per_person" then { s with meta_per_person := v }
  else s

/-- Model of `_shape_from_map`: apply string-valued entries over the defaults;
unknown keys and non-string values are ignored. -/
def shapeFromMap (kvs : List (String × Jv)) : SchemaShape :=
  kvs.foldl (fun s p =>
    match p.2 with
    | .str v => setShapeField s p.1 v
    | _ => s) {}

/-- Namespace detection on a root tag (`tag.split('}')[0][1:]` when the
tag starts with `{`). -/
def nsOfTag (tag : String) : Option String :=
  match tag.data with
  | '\x7b' :: rest => some (String.mk (rest.takeWhile (fun c => c ≠ '\x7d')))
  | _ => none

/-- Days/items half of `_infer_shape_from_example` plus the final meta
detection. -/
def inferDaysBranch (s1 : SchemaShape) (root : Elem) : SchemaShape :=
  let s2 :=
    match ciFindChild root.children
        ["Days", "days", "Itinerary", "Itineraries", "Schedule", "Schedules"] with
    | some days =>
      let sA := { s1 with days_tag := stripNsStr days.tag }
      match days.children.head? with
      | some firstDay =>
        let sB := { sA with day_tag := stripNsStr firstDay.tag }
        let sC :=
          if hasAttr firstDay "index" then { sB with day_index_attr := "index" }
          else if hasAttr firstDay "day" then { sB with day_index_attr := "day" }
          else sB
        match ciFindChild firstDay.children
            ["Items", "items", "Plan", "Plans", "Activities", "ActivityList"] with
        | some items =>
          let sD := { sC with items_tag := stripNsStr items.tag }
          match items.children.head? with
          | some fi => { sD with item_tag := stripNsStr fi.tag }
          | none => sD
        | none => sC
      | none => sA
    | none => s1
  match ciFindChild root.children ["Meta", "meta", "Info", "Header"] with
  | some m => { s2 with meta := some (stripNsStr m.tag) }
  | none => { s2 with meta := none }

/-- Model of `_infer_shape_from_example` on a successfully parsed example root. -/
def inferShapeFromExample (root : Elem) : SchemaShape :=
  let s0 : SchemaShape := { root := stripNsStr root.tag, ns := nsOfTag root.tag }
  let s1 :=
    match lookupAttr root "version" with
    | some v => { s0 with version_value := some v }
    | none => s0
  match ciFindChild root.children ["Timeline", "timeline"] with
  | some tl =>
    if !tl.children.isEmpty then
      let s2 := { s1 with
        mode := "timeline", timeline_tag := stripNsStr tl.tag,
        event_tag := stripNsStr (tl.children.headD (Elem.mk "" [] none [])).tag }
      match ciFindChild root.children ["Meta", "meta", "Info", "Header"] with
      | some m => { s2 with meta := some (stripNsStr m.tag) }
      | none => { s2 with meta := none }
    else inferDaysBranch s1 root
  | none => inferDaysBranch s1 root

/-! ## Shape resolution and `export_xml` -/

/-- A schema-map argument: the distinguishable states of the path and
file behind `schema_map` (a falsy path is `none` at the call site). -/
inductive MapSrc : Type where
  | fileMissing : MapSrc
  | unreadable : MapSrc
  | badJson : MapSrc
  | jsonVal : Jv → MapSrc

/-- A schema-example argument: the states of the file behind
`schema_example`. -/
inductive ExSrc : Type where
  | fileMissing : ExSrc
  | unparseable : ExSrc
  | parsed : Elem → ExSrc

/-- The shape-resolution block of `export_xml`: the map file (when
present) wins outright — a read or parse failure there yields `none`
(the builders then fall back to the all-defaults shape) without ever
consulting the example; otherwise the example is inferred; an
unparseable example falls back to the defaults inside
`_infer_shape_from_example`. -/
def resolveShape (schemaMap : Option MapSrc) (schemaExample : Option ExSrc) :
    Option SchemaShape :=
  match schemaMap with
  | some .unreadable => none
  | some .badJson => none
  | some (.jsonVal v) =>
    match v with
    | .obj kvs => some (shapeFromMap kvs)
    | _ => none
  | _ =>
    match schemaExample with
    | some .fileMissing => none
    | some .unparseable => some {}
    | some (.parsed root) => some (inferShapeFromExample root)
    | none => none

/-- Model of `export_xml`, returning the root element (the surrounding
ElementTree wrapper and the file write are not modelled): resolve the
shape, try the embedded-JSON path, else parse the markdown
heuristically. -/
def export_xml (destination : String) (days : Nat) (budget preferences : String)
    (markdown_plan : String) (summary tips : Option String)
    (schema_example : Option ExSrc) (schema_map : Option MapSrc) : Elem :=
  let shape := resolveShape schema_map schema_example
  match extract_plan_json markdown_plan with
  | some pj =>
    build_xml_from_json pj
      { destination := destination, totalDays := days, budget := budget,
        travelStyle := preferences, summary := summary } shape
  | none =>
    build_xml
      { destination := destination, days := days, budget := budget,
        preferences := preferences, summary := summary, tips := tips,
        daily := parse_markdown_days markdown_plan days } shape

/-! ## Readback helpers for the round-trip property -/

/-- First child with a given tag. -/
def findChildByTag (e : Elem) (t : String) : Option Elem :=
  e.children.find? (fun c => c.tag == t)

/-- Text of the first child with a given tag. -/
def childText (e : Elem) (t : String) : Option String :=
  (findChildByTag e t).bind Elem.text

/-- Children of the days container of a default-mode tree. -/
def daysChildren (tree : Elem) : List Elem :=
  ((findChildByTag tree "Days").map Elem.children).getD []

/-- Children of a day element's items container. -/
def itemsOf (de : Elem) : List Elem :=
  ((findChildByTag de "Items").map Elem.children).getD []

/-- Whether some child carries the given tag. -/
def hasChild (e : Elem) (t : String) : Bool :=
  e.children.any (fun c => c.tag == t)

/-! ## Helper lemmas -/

theorem mk_ne_empty (xs : List Char) (h : xs ≠ []) : String.mk xs ≠ "" := by
  intro hh
  exact h (congrArg String.data hh)

theorem mapPointwise {α β : Type} (l : List α) (f g : α → β) (h : ∀ a, f a = g a) :
    l.map f = l.map g :=
  congrArg l.map (funext h)

theorem toParts_map_fst (ms : List (Nat × Nat × Nat)) (L : Nat) :
    (toParts ms L).map (fun p => p.1) = ms.map (fun p => p.1) := by
  induction ms with
  | nil => rfl
  | cons x rest ih =>
    cases rest with
    | nil => obtain ⟨n, s, e⟩ := x; rfl
    | cons y rest2 =>
      obtain ⟨n, s, e⟩ := x
      obtain ⟨n2, s2, e2⟩ := y
      simpa [toParts] using ih

theorem detectPeriod_cases (l : List Char) :
    detectPeriod l = "morning" ∨ detectPeriod l = "afternoon" ∨
    detectPeriod l = "evening" ∨ detectPeriod l = "other" := by
  unfold detectPeriod
  dsimp only
  split_ifs <;> simp

theorem mem_items_parse (md : String) (days : Nat) (dp : DayPlan) (it : PlanItem)
    (hdp : dp ∈ parse_markdown_days md days) (hit : it ∈ dp.items) :
    ∃ l : List Char, it = mkItem l := by
  unfold parse_markdown_days at hdp
  dsimp only at hdp
  split at hdp
  · obtain ⟨i, _, rfl⟩ := List.mem_map.mp hdp
    simp at hit
  · obtain ⟨i, _, rfl⟩ := List.mem_map.mp hdp
    revert hit
    split
    · next b hfind =>
      intro hit
      have hb := List.mem_reverse.mp (List.mem_of_find?_eq_some hfind)
      obtain ⟨p, _, rfl⟩ := List.mem_map.mp hb
      unfold mkBlock at hit
      simp only at hit
      obtain ⟨line, _, heq⟩ := List.mem_filterMap.mp hit
      revert heq
      dsimp only
      split
      · exact fun h => absurd h (by simp)
      · split
        · exact fun h => absurd h (by simp)
        · exact fun h => ⟨_, (Option.some_inj.mp h).symm⟩
    · intro hit
      simp at hit

theorem childText_itemElem_title (it : PlanItem) :
    childText (itemElem {} it) "Title" = some it.title := rfl

theorem hasChild_itemElem_location (it : PlanItem) :
    hasChild (itemElem {} it) "Location" = optStr it.location := by
  unfold hasChild itemElem optChildEl
  cases hL : optStr it.location <;> cases hT : optStr it.transport <;>
    cases hD : optStr it.duration <;> cases hC : optStr it.cost <;>
      cases hN : optStr it.note <;> simp only [hL, hT, hD, hC, hN] <;> rfl

theorem hasChild_itemElem_transport (it : PlanItem) :
    hasChild (itemElem {} it) "Transport" = optStr it.transport := by
  unfold hasChild itemElem optChildEl
  cases hL : optStr it.location <;> cases hT : optStr it.transport <;>
    cases hD : optStr it.duration <;> cases hC : optStr it.cost <;>
      cases hN : optStr it.note <;> simp only [hL, hT, hD, hC, hN] <;> rfl

theorem hasChild_itemElem_duration (it : PlanItem) :
    hasChild (itemElem {} it) "Duration" = optStr it.duration := by
  unfold hasChild itemElem optChildEl
  cases hL : optStr it.location <;> cases hT : optStr it.transport <;>
    cases hD : optStr it.duration <;> cases hC : optStr it.cost <;>
      cases hN : optStr it.note <;> simp only [hL, hT, hD, hC, hN] <;> rfl

theorem hasChild_itemElem_cost (it : PlanItem) :
    hasChild (itemElem {} it) "Cost" = optStr it.cost := by
  unfold hasChild itemElem optChildEl
  cases hL : optStr it.location <;> cases hT : optStr it.transport <;>
    cases hD : optStr it.duration <;> cases hC : optStr it.cost <;>
      cases hN : optStr it.note <;> simp only [hL, hT, hD, hC, hN] <;> rfl

theorem itemsOf_dayElem (d : DayPlan) :
    itemsOf (dayElem {} d) = d.items.map (itemElem {}) := by
  unfold itemsOf dayElem
  cases hn : optStr d.note <;> simp only [hn] <;> rfl

theorem daysChildren_build_xml (plan : TravelPlan) :
    daysChildren (build_xml plan none) = plan.daily.map (dayElem {}) := rfl

theorem day_titles (d : DayPlan) :
    (itemsOf (dayElem {} d)).map (fun ie => childText ie "Title") =
      d.items.map (fun it => some it.title) := by
  rw [itemsOf_dayElem, List.map_map]
  exact mapPointwise _ _ _ (fun it => childText_itemElem_title it)

theorem day_locations (d : DayPlan) :
    (itemsOf (dayElem {} d)).map (fun ie => hasChild ie "Location") =
      d.items.map (fun it => optStr it.location) := by
  rw [itemsOf_dayElem, List.map_map]
  exact mapPointwise _ _ _ (fun it => hasChild_itemElem_location it)

theorem day_transports (d : DayPlan) :
    (itemsOf (dayElem {} d)).map (fun ie => hasChild ie "Transport") =
      d.items.map (fun it => optStr it.transport) := by
  rw [itemsOf_dayElem, List.map_map]
  exact mapPointwise _ _ _ (fun it => hasChild_itemElem_transport it)

theorem day_durations (d : DayPlan) :
    (itemsOf (dayElem {} d)).map (fun ie => hasChild ie "Duration") =
      d.items.map (fun it => optStr it.duration) := by
  rw [itemsOf_dayElem, List.map_map]
  exact mapPointwise _ _ _ (fun it => hasChild_itemElem_duration it)

theorem day_costs (d : DayPlan) :
    (itemsOf (dayElem {} d)).map (fun ie => hasChild ie "Cost") =
      d.items.map (fun it => optStr it.cost) := by
  rw [itemsOf_dayElem, List.map_map]
  exact mapPointwise _ _ _ (fun it => hasChild_itemElem_cost it)

/-! ## Claim theorems -/

/-- C8: for every TravelPlan, reading the default-mode tree produced by
`build_xml` back through the default shape's tag names recovers the
destination, budget and preferences texts and, for each day in order,
the titles of its items; and an item element has a
Location/Transport/Duration/Cost child exactly when the item's
corresponding field is truthy (present and non-empty). -/
theorem c8_roundtrip (plan : TravelPlan) :
    ((findChildByTag (build_xml plan none) "Meta").bind
        (fun m => childText m "Destination") = some plan.destination) ∧
    ((findChildByTag (build_xml plan none) "Meta").bind
        (fun m => childText m "Budget") = some plan.budget) ∧
    ((findChildByTag (build_xml plan none) "Meta").bind
        (fun m => childText m "Preferences") = some plan.preferences) ∧
    ((daysChildren (build_xml plan none)).map
        (fun de => (itemsOf de).map (fun ie => childText ie "Title")) =
      plan.daily.map (fun d => d.items.map (fun it => some it.title))) ∧
    ((daysChildren (build_xml plan none)).map
        (fun de => (itemsOf de).map (fun ie => hasChild ie "Location")) =
      plan.daily.map (fun d => d.items.map (fun it => optStr it.location))) ∧
    ((daysChildren (build_xml plan none)).map
        (fun de => (itemsOf de).map (fun ie => hasChild ie "Transport")) =
      plan.daily.map (fun d => d.items.map (fun it => optStr it.transport))) ∧
    ((daysChildren (build_xml plan none)).map
        (fun de => (itemsOf de).map (fun ie => hasChild ie "Duration")) =
      plan.daily.map (fun d => d.items.map (fun it => optStr it.duration))) ∧
    ((daysChildren (build_xml plan none)).map
        (fun de => (itemsOf de).map (fun ie => hasChild ie "Cost")) =
      plan.daily.map (fun d => d.items.map (fun it => optStr it.cost))) := by
  refine ⟨rfl, rfl, rfl, ?_, ?_, ?_, ?_, ?_⟩ <;>
    rw [daysChildren_build_xml, List.map_map]
  · exact mapPointwise _ _ _ (fun d => day_titles d)
  · exact mapPointwise _ _ _ (fun d => day_locations d)
  · exact mapPointwise _ _ _ (fun d => day_transports d)
  · exact mapPointwise _ _ _ (fun d => day_durations d)
  · exact mapPointwise _ _ _ (fun d => day_costs d)

/-- C6 (counterexample): the claim says a meta child appears exactly
when the field has a value, with valueless fields omitted rather than
emitted as empty elements; but for a plan whose destination, budget and
preferences are all empty strings, `build_xml` still emits Destination,
Days, Budget and Preferences children with empty text. -/
theorem c6_counterexample :
    (findChildByTag
        (build_xml { destination := "", days := 2, budget := "", preferences := "",
                     daily := [] } none) "Meta").map Elem.children =
      some [Elem.mk "Destination" [] (some "") [], Elem.mk "Days" [] (some "2") [],
            Elem.mk "Budget" [] (some "") [], Elem.mk "Preferences" [] (some "") []] ∧
    optStr (some "") = false := ⟨rfl, rfl⟩

/-- C6 (amended): in default mode with the built-in shape, the meta
container always contains Destination, day count, Budget and
Preferences children (even when those fields are empty), while Summary
and Tips children appear exactly when the corresponding field is truthy. -/
theorem c6_meta_children (plan : TravelPlan) :
    (findChildByTag (build_xml plan none) "Meta").map Elem.children =
      some (Elem.mk "Destination" [] (some plan.destination) [] ::
            Elem.mk "Days" [] (some (toString plan.days)) [] ::
            Elem.mk "Budget" [] (some plan.budget) [] ::
            Elem.mk "Preferences" [] (some plan.preferences) [] ::
            ((if optStr plan.summary then [Elem.mk "Summary" [] plan.summary []] else []) ++
             (if optStr plan.tips then [Elem.mk "Tips" [] plan.tips []] else []))) := rfl

/-- C7: for the bullet line `- 晚餐 - 2.5小时 地铁`, extraction yields
title 晚餐, note `2.5小时 地铁`, duration "150" (2.5 hours times 60,
truncated) and transport "subway" (first match in the ordered transport
table), both at the helper level and through the full parser. -/
theorem c7_bullet_extraction :
    splitTitleAndNote "晚餐 - 2.5小时 地铁".data = ("晚餐", some "2.5小时 地铁") ∧
    extractDurationMinutes "晚餐 - 2.5小时 地铁".data = some 150 ∧
    extractTransport "晚餐 - 2.5小时 地铁".data = some "subway" ∧
    parse_markdown_days "第1天\n- 晚餐 - 2.5小时 地铁" 1 =
      [⟨1, [⟨"other", "晚餐", none, some "subway", some "150", none,
            some "2.5小时 地铁"⟩], none⟩] := by
  refine ⟨rfl, by decide, rfl, by decide⟩

/-- C10: the whole pipeline is deterministic — for fixed markdown, day
count, plan metadata and shape, two runs of `parse_markdown_days`
followed by `build_xml`, or of `build_xml_from_json` on the same parsed
JSON object, produce identical element trees (the embedding is pure;
the source's only global effect, namespace registration, does not touch
tree contents). -/
theorem c10_determinism (md : String) (days : Nat) (dest bud prefs : String)
    (summ tips : Option String) (shape : Option SchemaShape) (data : Jv)
    (fb : FallbackMeta) :
    parse_markdown_days md days = parse_markdown_days md days ∧
    build_xml { destination := dest, days := days, budget := bud, preferences := prefs,
                summary := summ, tips := tips,
                daily := parse_markdown_days md days } shape =
      build_xml { destination := dest, days := days, budget := bud, preferences := prefs,
                  summary := summ, tips := tips,
                  daily := parse_markdown_days md days } shape ∧
    build_xml_from_json data fb shape = build_xml_from_json data fb shape :=
  ⟨rfl, rfl, rfl⟩

/-- C2 (counterexample): the claim says that on the embedded-JSON path
with a shape whose mode is `default`, the builder produces the default
days/items structure instead of a timeline container; but with the
all-defaults shape (mode `default`) the JSON builder's root children
are a Meta container followed by a Timeline container, and no Days
container at all. -/
theorem c2_counterexample :
    (build_xml_from_json (Jv.obj [])
        { destination := "X", totalDays := 1, budget := "b", travelStyle := "p",
          summary := none } (some {})).children.map Elem.tag = ["Meta", "Timeline"] ∧
    ({} : SchemaShape).mode = "default" ∧
    (["Meta", "Timeline"].contains "Days") = false := ⟨rfl, rfl, rfl⟩

/-- C2 (amended): on every embedded-JSON input on which the builder
completes (it raises no uncaught exception, `jsonBuildRaises = false`),
`build_xml_from_json` never consults the shape's `mode` — its output is
identical under mode `default` and mode `timeline` — and the last child
of its root is always the timeline container; a `default` mode never
yields a days/items structure.  On ill-typed inputs the source raises
and emits nothing. -/
theorem c2_mode_ignored (data : Jv) (fb : FallbackMeta) (s : SchemaShape)
    (hok : jsonBuildRaises data fb = false) :
    build_xml_from_json data fb (some { s with mode := "default" }) =
      build_xml_from_json data fb (some { s with mode := "timeline" }) ∧
    (build_xml_from_json data fb (some { s with mode := "default" })).children.getLast? =
      some (renderJsonTimeline { s with mode := "default" } data) := by
  constructor
  · rfl
  · unfold build_xml_from_json
    dsimp only [Elem.children]
    exact List.getLast?_concat _

/-- Witness for C2 at a concrete non-raising input: a one-event
timeline object renders identically under both modes and ends in the
timeline container. -/
theorem c2_mode_ignored_witness :
    jsonBuildRaises
        (Jv.obj [("timeline", Jv.arr [Jv.obj [("type", Jv.str "dining")]])])
        { destination := "X", totalDays := 1, budget := "b", travelStyle := "p",
          summary := none } = false ∧
    (build_xml_from_json
        (Jv.obj [("timeline", Jv.arr [Jv.obj [("type", Jv.str "dining")]])])
        { destination := "X", totalDays := 1, budget := "b", travelStyle := "p",
          summary := none } (some { ({} : SchemaShape) with mode := "default" }) =
      build_xml_from_json
        (Jv.obj [("timeline", Jv.arr [Jv.obj [("type", Jv.str "dining")]])])
        { destination := "X", totalDays := 1, budget := "b", travelStyle := "p",
          summary := none } (some { ({} : SchemaShape) with mode := "timeline" }) ∧
     (build_xml_from_json
        (Jv.obj [("timeline", Jv.arr [Jv.obj [("type", Jv.str "dining")]])])
        { destination := "X", totalDays := 1, budget := "b", travelStyle := "p",
          summary := none }
        (some { ({} : SchemaShape) with mode := "default" })).children.getLast? =
      some (renderJsonTimeline { ({} : SchemaShape) with mode := "default" }
        (Jv.obj [("timeline", Jv.arr [Jv.obj [("type", Jv.str "dining")]])]))) :=
  ⟨rfl,
   c2_mode_ignored
     (Jv.obj [("timeline", Jv.arr [Jv.obj [("type", Jv.str "dining")]])])
     { destination := "X", totalDays := 1, budget := "b", travelStyle := "p",
       summary := none } {} rfl⟩

/-- C3: schema-shape resolution uses exactly one source in strict
priority: a well-formed map file wins outright over any example; a map
file that exists but is unreadable or holds malformed JSON (or a
non-object document) resolves to the all-defaults shape — not to the
example-inferred shape — with no error (the resolution is total);
otherwise a present example is inferred, and with neither source the
builders use the built-in default. -/
theorem c3_shape_priority (kvs : List (String × Jv)) (ex : Option ExSrc) (root : Elem) :
    resolveShape (some (.jsonVal (.obj kvs))) ex = some (shapeFromMap kvs) ∧
    resolveShape (some .unreadable) ex = none ∧
    resolveShape (some .badJson) ex = none ∧
    ((resolveShape (some .unreadable) ex).getD {} = ({} : SchemaShape)) ∧
    ((resolveShape (some .badJson) ex).getD {} = ({} : SchemaShape)) ∧
    resolveShape none (some (.parsed root)) = some (inferShapeFromExample root) ∧
    resolveShape (some .fileMissing) (some (.parsed root)) =
      some (inferShapeFromExample root) ∧
    resolveShape none none = none :=
  ⟨rfl, rfl, rfl, rfl, rfl, rfl, rfl, rfl⟩

/-- C4: the embedded-JSON extractor considers only the first fenced
json block (its result is the head of the list of all such blocks,
parsed); when it yields nothing, `export_xml` renders via the heuristic
markdown parser, and when it yields a structured object the JSON
builder is used and the markdown parser's output plays no part. -/
theorem c4_extractor_fallback (md dest bud prefs : String) (days : Nat)
    (summ tips : Option String) (ex : Option ExSrc) (mp : Option MapSrc) (j : Jv) :
    (extract_plan_json md =
      ((allFencedBodies (md.data.length + 1) md.data).head?).bind
        (fun b => parseJson (String.mk b))) ∧
    (extract_plan_json md = none →
      export_xml dest days bud prefs md summ tips ex mp =
        build_xml
          { destination := dest, days := days, budget := bud, preferences := prefs,
            summary := summ, tips := tips, daily := parse_markdown_days md days }
          (resolveShape mp ex)) ∧
    (extract_plan_json md = some j →
      export_xml dest days bud prefs md summ tips ex mp =
        build_xml_from_json j
          { destination := dest, totalDays := days, budget := bud,
            travelStyle := prefs, summary := summ }
          (resolveShape mp ex)) := by
  refine ⟨?_, ?_, ?_⟩
  · cases hf : firstFencedFrom md.data with
    | none => simp [extract_plan_json, allFencedBodies, hf]
    | some p => simp [extract_plan_json, allFencedBodies, hf]
  · intro h
    unfold export_xml
    rw [h]
  · intro h
    unfold export_xml
    rw [h]

/-- Witness for C4 at concrete inputs: markdown without a fenced block
falls back to the heuristic parser, and markdown with a valid fenced
json block drives the JSON builder. -/
theorem c4_extractor_fallback_witness :
    export_xml "d" 1 "b" "p" "plain text" none none none none =
      build_xml
        { destination := "d", days := 1, budget := "b", preferences := "p",
          summary := none, tips := none,
          daily := parse_markdown_days "plain text" 1 } (resolveShape none none) ∧
    export_xml "d" 1 "b" "p" "```json\n\x7b\"a\": 1\x7d\n```" none none none none =
      build_xml_from_json (Jv.obj [("a", Jv.num 1)])
        { destination := "d", totalDays := 1, budget := "b", travelStyle := "p",
          summary := none } (resolveShape none none) :=
  ⟨(c4_extractor_fallback "plain text" "d" "b" "p" 1 none none none none Jv.null).2.1 rfl,
   (c4_extractor_fallback "```json\n\x7b\"a\": 1\x7d\n```" "d" "b" "p" 1 none none
      none none (Jv.obj [("a", Jv.num 1)])).2.2 rfl⟩

theorem range_map_index (days : Nat) (f : Nat → DayPlan)
    (hf : ∀ i, (f i).index = i + 1) :
    ((List.range days).map f).map DayPlan.index = List.range' 1 days := by
  rw [List.map_map]
  have h2 : (DayPlan.index ∘ f) = fun i => 1 + i :=
    funext (fun i => by rw [Function.comp_apply, hf i, Nat.add_comm])
  rw [h2, ← List.range'_eq_map_range]

/-- C1 (counterexample): the claim says every day number in `1..days`
with no parsed block is filled with an empty note; but on markdown with
no matching heading at all (so no day has a parsed block), the parser
fills every day with the whole stripped document as its note instead. -/
theorem c1_counterexample :
    scanHeadings "hello".data = [] ∧
    parse_markdown_days "hello" 1 = [⟨1, [], some "hello"⟩] ∧
    (some "hello" : Option String) ≠ some "" := by
  refine ⟨rfl, rfl, by decide⟩

/-- C1 (amended): for every day count `days ≥ 1` and markdown, the
parser returns exactly `days` entries indexed `1..days` in increasing
order; parsed days outside `1..days` are discarded; and — provided at
least one day heading matched — each day number in `1..days` with no
parsed block is filled by a synthesized DayPlan with no items and an
empty note (with no heading at all, every day instead carries the
stripped document as its note, per C5). -/
theorem c1_parse_reconciles (md : String) (days : Nat) (h : 1 ≤ days) :
    (parse_markdown_days md days).map DayPlan.index = List.range' 1 days ∧
    (scanHeadings md.data ≠ [] →
      ∀ i, 1 ≤ i → i ≤ days → i ∉ (scanHeadings md.data).map (fun p => p.1) →
        (parse_markdown_days md days).get? (i - 1) = some ⟨i, [], some ""⟩) := by
  constructor
  · unfold parse_markdown_days
    dsimp only
    split
    · exact range_map_index days _ (fun i => rfl)
    · apply range_map_index days _
      intro i
      dsimp only
      split
      · next b hfind => simpa using List.find?_some hfind
      · rfl
  · intro hne i h1 h2 hnotin
    unfold parse_markdown_days
    dsimp only
    have hemp : ¬((scanHeadings md.data).isEmpty = true) := by
      simpa [List.isEmpty_iff] using hne
    rw [if_neg hemp, List.get?_map, List.get?_range (by omega : i - 1 < days)]
    have hi1 : i - 1 + 1 = i := Nat.sub_add_cancel h1
    have hfind :
        List.find? (fun b => b.index == i - 1 + 1)
          ((toParts (scanHeadings md.data) md.data.length).map
            (mkBlock md.data)).reverse = none := by
      apply List.find?_eq_none.mpr
      intro b hb
      have hbm := List.mem_reverse.mp hb
      obtain ⟨p, hp, rfl⟩ := List.mem_map.mp hbm
      intro hbeq
      apply hnotin
      have hidx : (mkBlock md.data p).index = i := by
        rw [← hi1]; simpa using hbeq
      have hfst : p.1 = i := hidx
      have hpm : p.1 ∈ (toParts (scanHeadings md.data) md.data.length).map
          (fun q => q.1) := List.mem_map.mpr ⟨p, hp, rfl⟩
      rw [toParts_map_fst, hfst] at hpm
      exact hpm
    simp only [Option.map_some']
    rw [hfind]
    simp [hi1]

/-- Witness for C1 at a concrete input: one heading for day 1 and a
requested count of 2 — indices are 1, 2 and the missing day 2 is filled
with an empty note. -/
theorem c1_parse_reconciles_witness :
    (parse_markdown_days "第1天\nx" 2).map DayPlan.index = List.range' 1 2 ∧
    (parse_markdown_days "第1天\nx" 2).get? 1 = some ⟨2, [], some ""⟩ :=
  ⟨(c1_parse_reconciles "第1天\nx" 2 (by decide)).1,
   (c1_parse_reconciles "第1天\nx" 2 (by decide)).2 (by decide) 2 (by decide)
     (by decide) (by decide)⟩

/-- C5 (counterexample): the claim says the note equals the full
document text; the parser actually strips surrounding whitespace, so on
`"hello\n"` each note is `"hello"`, not the full document text. -/
theorem c5_counterexample :
    scanHeadings "hello\n".data = [] ∧
    parse_markdown_days "hello\n" 3 =
      [⟨1, [], some "hello"⟩, ⟨2, [], some "hello"⟩, ⟨3, [], some "hello"⟩] ∧
    ("hello" : String) ≠ "hello\n" := by
  refine ⟨rfl, rfl, by decide⟩

/-- C5 (amended): when no day-heading marker matches, the parser
returns `n` DayPlans, each with an empty item list and an identical
note equal to the whitespace-stripped full document text. -/
theorem c5_no_headings_fallback (md : String) (n : Nat)
    (h : scanHeadings md.data = []) :
    (parse_markdown_days md n).length = n ∧
    (parse_markdown_days md n).map DayPlan.note =
      List.replicate n (some (String.mk (pyStripWs md.data))) ∧
    (parse_markdown_days md n).map DayPlan.items = List.replicate n [] := by
  have hred : parse_markdown_days md n = (List.range n).map
      (fun i => ⟨i + 1, [], some (String.mk (pyStripWs md.data))⟩) := by
    unfold parse_markdown_days
    dsimp only
    rw [h]
    rfl
  rw [hred]
  refine ⟨by simp, ?_, ?_⟩
  · rw [List.map_map]
    rw [show (DayPlan.note ∘ fun i =>
        ({ index := i + 1, items := [], note := some (String.mk (pyStripWs md.data)) } :
          DayPlan)) = fun _ => some (String.mk (pyStripWs md.data)) from rfl]
    rw [List.map_const', List.length_range]
  · rw [List.map_map]
    rw [show (DayPlan.items ∘ fun i =>
        ({ index := i + 1, items := [], note := some (String.mk (pyStripWs md.data)) } :
          DayPlan)) = fun _ => ([] : List PlanItem) from rfl]
    rw [List.map_const', List.length_range]

/-- Witness for C5 at a concrete input with no headings. -/
theorem c5_no_headings_fallback_witness :
    (parse_markdown_days "x y\n" 3).length = 3 ∧
    (parse_markdown_days "x y\n" 3).map DayPlan.note =
      List.replicate 3 (some (String.mk (pyStripWs "x y\n".data))) ∧
    (parse_markdown_days "x y\n" 3).map DayPlan.items = List.replicate 3 [] :=
  c5_no_headings_fallback "x y\n" 3 rfl

/-- C9 (counterexample): the claim says every extracted PlanItem has a
non-empty title; but the bullet line `。。` (two ideographic full
stops) survives the length filter and, after `strip('。')` empties the
text, produces an item whose title is the empty string. -/
theorem c9_counterexample :
    (parse_markdown_days "第1天\n- 。。" 1).map (fun d => d.items.map PlanItem.title) =
      [[""]] := by decide

/-- C9 (amended): every PlanItem produced by markdown extraction has
its period set to one of morning/afternoon/evening/other (defaulting to
other), and the extracted title is non-empty whenever the line, after
stripping whitespace and ideographic full stops, is non-empty (a line
consisting solely of `。` characters yields an empty title). -/
theorem c9_invariants :
    (∀ (md : String) (days : Nat) (dp : DayPlan) (it : PlanItem),
        dp ∈ parse_markdown_days md days → it ∈ dp.items →
        (it.period = "morning" ∨ it.period = "afternoon" ∨
         it.period = "evening" ∨ it.period = "other")) ∧
    (∀ l : List Char, cleanTitleText l ≠ [] → (splitTitleAndNote l).1 ≠ "") := by
  constructor
  · intro md days dp it hdp hit
    obtain ⟨l, rfl⟩ := mem_items_parse md days dp it hdp hit
    exact detectPeriod_cases l
  · intro l hne
    unfold splitTitleAndNote
    dsimp only
    split
    · dsimp only
      split
      · exact mk_ne_empty _ hne
      · next hf =>
        exact mk_ne_empty _ (by simpa [List.isEmpty_iff] using hf)
    · split
      · split
        · next hcond =>
          apply mk_ne_empty
          have := (Bool.and_eq_true _ _).mp hcond
          simpa [List.isEmpty_iff] using this.1
        · exact mk_ne_empty _ hne
      · exact mk_ne_empty _ hne

/-- Witness for C9 at concrete inputs: the item extracted from
`- 早上 去公园` carries period `other`, and the one-character line `山`
yields a non-empty title. -/
theorem c9_invariants_witness :
    (({ period := "other", title := "早上 去公园" } : PlanItem).period = "morning" ∨
     ({ period := "other", title := "早上 去公园" } : PlanItem).period = "afternoon" ∨
     ({ period := "other", title := "早上 去公园" } : PlanItem).period = "evening" ∨
     ({ period := "other", title := "早上 去公园" } : PlanItem).period = "other") ∧
    (splitTitleAndNote "山".data).1 ≠ "" :=
  ⟨c9_invariants.1 "第1天\n- 早上 去公园" 2
      ⟨1, [{ period := "other", title := "早上 去公园" }], none⟩
      { period := "other", title := "早上 去公园" } (by decide) (by decide),
   c9_invariants.2 "山".data (by decide)⟩
